import Mathlib

/-!
Verification model of the metavisor-cli saga engine: the compensation stack
from pkg/mv (QueueCleanup / Cleanup / cleanupStack), the device-convergence
poller and wrap-instance saga from pkg/mv/wrap, and the volume operations of
the AWS service client. Pure Go functions are translated directly; the AWS
provider and the select-based race in wrap.Instance are modelled as
oracle-driven state transitions threaded explicitly through the code.
-/

set_option maxHeartbeats 1000000
set_option autoImplicit false

/-! ## Compensation stack (pkg/mv) -/

/-- cleanupFunc from pkg/mv: a queued cleanup body together with the
onlyOnFail flag. The body type is kept abstract as `α`. -/
structure cleanupFunc (α : Type) where
  f : α
  onlyOnFail : Bool
deriving DecidableEq, Repr

/-- The funcs slice of the cleanupStack type from pkg/mv. The Go slice keeps
the most recently pushed entry at the highest index; in this model the head
of the list is the top of the stack (most recently pushed first). -/
abbrev cleanupStack (α : Type) := List (cleanupFunc α)

/-- cleanupStack.Push: place a new entry on top of the stack. -/
def cleanupStack.Push {α : Type} (s : cleanupStack α) (c : cleanupFunc α) : cleanupStack α :=
  c :: s

/-- cleanupStack.Pop: remove and return the top entry; reports an error
(modelled as none) on an empty stack. -/
def cleanupStack.Pop {α : Type} : cleanupStack α → Option (cleanupFunc α × cleanupStack α)
  | [] => none
  | c :: cs => some (c, cs)

/-- cleanupStack.Len: current number of entries. -/
def cleanupStack.Len {α : Type} (s : cleanupStack α) : Nat := s.length

/-- QueueCleanup from pkg/mv: queue a cleanup body with its onlyOnFail flag
on top of the stack. -/
def QueueCleanup {α : Type} (s : cleanupStack α) (f : α) (onlyOnFail : Bool) : cleanupStack α :=
  cleanupStack.Push s ⟨f, onlyOnFail⟩

/-- Cleanup from pkg/mv: pop entries until the stack is empty, running an
entry exactly when !success || (success && !onlyOnFail). Returns the bodies
that were run, in execution order, together with the drained stack. -/
def Cleanup {α : Type} (success : Bool) : cleanupStack α → List α × cleanupStack α
  | [] => ([], [])
  | c :: cs =>
    let r := Cleanup success cs
    if !success || (success && !c.onlyOnFail) then (c.f :: r.1, r.2) else r

/-- Registration of a whole sequence of compensations through QueueCleanup,
in registration order, starting from an empty stack. -/
def registerAll {α : Type} (regs : List (cleanupFunc α)) : cleanupStack α :=
  regs.foldl (fun s c => QueueCleanup s c.f c.onlyOnFail) []

/-- Executor for compensation bodies of type σ → σ × Option ε: each body
transforms the state and may report an error, which the registered closures
log and swallow (a Go cleanup closure func() cannot propagate an error).
Returns the final state and the per-body error reports, in execution
order. -/
def runBodies {σ ε : Type} : List (σ → σ × Option ε) → σ → σ × List (Option ε)
  | [], s0 => (s0, [])
  | b :: bs, s0 =>
    let r := b s0
    let rest := runBodies bs r.1
    (rest.1, r.2 :: rest.2)

/-! ## Device-convergence poller (awaitInstanceDevices, pkg/mv/wrap/instance.go) -/

/-- Errors of the modelled packages (pkg/csp/aws, pkg/mv, pkg/mv/wrap). -/
inductive AwsErr
  | notAllowed
  | timedOut
  | invalidID
  | invalidAMI
  | invalidLaunchToken
  | noRootDevice
  | invalidType
  | deviceOccupied
  | badUserdata
  | interrupted
  | generic (msg : String)
deriving DecidableEq, Repr

/-- An aws.Instance as consumed by the wrap saga: its ID, type, root device
name, block-device mapping (device name to volume ID), availability zone and
networking attributes. -/
structure InstanceM where
  id : String
  instanceType : String
  rootDeviceName : String
  deviceMapping : List (String × String)
  availabilityZone : String
  sriovNetSupport : String
  enaSupport : Bool
deriving DecidableEq, Repr

/-- GuestDeviceName from pkg/mv/wrap: where the guest volume is moved. -/
def GuestDeviceName : String := "/dev/sdf"

/-- maxTries of awaitInstanceDevices. -/
def maxTries : Nat := 60

/-- The convergence condition checked by each iteration of
awaitInstanceDevices: the observed mapping holds the guest volume at
GuestDeviceName and the metavisor volume at the instance root device name. -/
def devicesConverged (rootDeviceName mvVolID guestVolID : String) (inst : InstanceM) : Bool :=
  match inst.deviceMapping.lookup GuestDeviceName, inst.deviceMapping.lookup rootDeviceName with
  | some gVID, some mVID => guestVolID == gVID && mvVolID == mVID
  | _, _ => false

deriving instance DecidableEq for Except

/-- Outcome of a polling run: the returned value, the number of GetInstance
observations performed, and the number of sleeps taken. -/
structure PollOutcome where
  result : Except AwsErr InstanceM
  observations : Nat
  sleeps : Nat
deriving DecidableEq, Repr

/-- The loop body of awaitInstanceDevices. The loop counter try runs from 1
while try <= maxTries; fuel = maxTries - try + 1 counts the remaining
iterations. On ErrNotAllowed the loop returns at once; on any other
GetInstance error it continues (which skips the sleep); on a converged
observation it returns the instance; at try == maxTries it returns
ErrTimedOut; otherwise it sleeps and retries. -/
def awaitGo (getInstance : Nat → Except AwsErr InstanceM)
    (rootDeviceName mvVolID guestVolID : String) :
    Nat → Nat → Nat → Nat → PollOutcome
  | _, 0, obs, slp => ⟨.error .timedOut, obs, slp⟩
  | tr, fuel + 1, obs, slp =>
    match getInstance tr with
    | .error e =>
      if e = .notAllowed then ⟨.error .notAllowed, obs + 1, slp⟩
      else awaitGo getInstance rootDeviceName mvVolID guestVolID (tr + 1) fuel (obs + 1) slp
    | .ok inst =>
      if devicesConverged rootDeviceName mvVolID guestVolID inst then ⟨.ok inst, obs + 1, slp⟩
      else if tr = maxTries then ⟨.error .timedOut, obs + 1, slp⟩
      else awaitGo getInstance rootDeviceName mvVolID guestVolID (tr + 1) fuel (obs + 1) (slp + 1)

/-- awaitInstanceDevices from pkg/mv/wrap/instance.go: poll GetInstance
(whose per-attempt observations are the oracle getInstance) until the device
mapping shows guestVolID at GuestDeviceName and mvVolID at the root device
name of the instance the saga started from. -/
def awaitInstanceDevices (getInstance : Nat → Except AwsErr InstanceM)
    (inst : InstanceM) (mvVolID guestVolID : String) : PollOutcome :=
  awaitGo getInstance inst.rootDeviceName mvVolID guestVolID 1 maxTries 0 0

/-! ## Volume deletion (aws service client, DeleteVolume) -/

/-- accessDeniedErrorCode from pkg/csp/aws. -/
def accessDeniedErrorCode : String := "AccessDenied"

/-- volumeNotFound error-code fragment from pkg/csp/aws. -/
def volumeNotFound : String := "InvalidVolumeID"

/-- Helper for strings.Contains: does pat occur in the character list. -/
def strContainsAux (pat : List Char) : List Char → Bool
  | [] => pat.isPrefixOf []
  | c :: cs => pat.isPrefixOf (c :: cs) || strContainsAux pat cs

/-- strings.Contains(s, pat). -/
def strContains (s pat : String) : Bool := strContainsAux pat.data s.data

/-- strings.TrimSpace: drop leading and trailing whitespace. -/
def trimSpace (s : String) : String :=
  ⟨((s.data.dropWhile Char.isWhitespace).reverse.dropWhile Char.isWhitespace).reverse⟩

/-- An error surfaced by the AWS SDK call underlying DeleteVolume: either an
awserr.Error carrying a Code(), or a plain error. -/
inductive ProviderErr
  | awsError (code : String)
  | plain (msg : String)
deriving DecidableEq, Repr

/-- The error returned by the service client DeleteVolume. -/
inductive VolDeleteErr
  | notAllowed
  | invalidVolumeID
  | passthrough (e : ProviderErr)
deriving DecidableEq, Repr

/-- DeleteVolume from the AWS service client: rejects a blank volume ID,
maps an access-denied code to ErrNotAllowed, treats a code containing
volumeNotFound as success (deleting a non-existing volume is a no-op), and
propagates every other provider error. providerResult is the outcome of the
underlying DeleteVolumeWithContext call (none meaning success). -/
def DeleteVolume (volumeID : String) (providerResult : Option ProviderErr) : Option VolDeleteErr :=
  if trimSpace volumeID = "" then some .invalidVolumeID
  else
    match providerResult with
    | none => none
    | some (.awsError code) =>
      if code = accessDeniedErrorCode then some .notAllowed
      else if strContains code volumeNotFound then none
      else some (.passthrough (.awsError code))
    | some (.plain m) => some (.passthrough (.plain m))

/-! ## The wrap-instance saga (pkg/mv/wrap), as an oracle-driven state machine.

The single target instance and its block volumes form the world state; every
AWS service call is recorded in a trace and answered either from the world or
from an oracle environment that also carries injectable faults. -/

/-- The cleanup closures registered by the wrap saga, as data. Both closures
registered during awsWrapInstance / awsShuffleInstanceVolumes call
service.DeleteVolume on a captured volume ID and swallow (log) any error. -/
inductive CleanupAction
  | deleteVolume (volID : String)
deriving DecidableEq, Repr

/-- The instance attributes set through ModifyInstanceAttribute. -/
inductive instanceAttribute
  | AttrSriovNetSupport
  | AttrENASupport
  | AttrUserData
deriving DecidableEq, Repr

/-- One AWS service call made by the saga. -/
inductive Call
  | getInstance (id : String)
  | getImage (id : String)
  | getSnapshot (id : String)
  | getMetavisorAMI
  | stopInstance (id : String)
  | modifyInstanceAttribute (id : String) (attr : instanceAttribute)
  | createVolume (snapID zone : String)
  | detachVolume (volID instID device : String)
  | attachVolume (volID instID device : String)
  | startInstance (id : String)
  | deleteInstanceDevicesOnTermination (id : String)
deriving DecidableEq, Repr

/-- Whether a call mutates cloud state (reads and the version lookup do not). -/
def Call.isMutating : Call → Bool
  | .getInstance _ => false
  | .getImage _ => false
  | .getSnapshot _ => false
  | .getMetavisorAMI => false
  | _ => true

/-- The cloud state the saga mutates: the target instance's attributes and
block-device mapping (device name to volume ID) plus the set of existing
volumes. -/
structure World where
  instID : String
  instanceType : String
  rootDeviceName : String
  availabilityZone : String
  sriovNetSupport : String
  enaSupport : Bool
  devices : List (String × String)
  volumes : List String
deriving DecidableEq, Repr

/-- The aws.Instance view of the current world, as GetInstance returns it. -/
def worldInstance (w : World) : InstanceM :=
  ⟨w.instID, w.instanceType, w.rootDeviceName, w.devices, w.availabilityZone,
    w.sriovNetSupport, w.enaSupport⟩

/-- The state threaded through one saga run: the world, the process-wide
cleanup stack of pkg/mv, and the trace of service calls made so far. -/
structure SagaS where
  world : World
  cleanups : cleanupStack CleanupAction
  calls : List Call
deriving Repr

/-- A saga step: explicit state passing with early error return, mirroring
the Go x, err := call(); if err != nil pattern. -/
abbrev SagaM (α : Type) := SagaS → Except AwsErr α × SagaS

/-- Record a service call in the trace. -/
def emitCall (c : Call) (s : SagaS) : SagaS := { s with calls := s.calls ++ [c] }

/-- mv.QueueCleanup as used by the saga: push a closure on the shared stack. -/
def queueCleanupS (a : CleanupAction) (onlyOnFail : Bool) (s : SagaS) : SagaS :=
  { s with cleanups := QueueCleanup s.cleanups a onlyOnFail }

/-- An aws.Image as consumed by awsMetavisorSnapshot: root device name,
device mapping (device name to snapshot ID) and ENA support. -/
structure ImageM where
  rootDeviceName : String
  deviceMapping : List (String × String)
  enaSupport : Bool
deriving DecidableEq, Repr

/-- An aws.Snapshot as consumed by the saga: its ID and size in GiB. -/
structure SnapshotM where
  id : String
  sizeGB : Nat
deriving DecidableEq, Repr

/-- Oracle responses and injectable faults of the external collaborators:
the AWS provider per operation, the metavisor version-listing service, and
the launch-token validator (whose base64/JSON decoding is stdlib code). -/
structure SagaEnv where
  isValidToken : String → Bool
  getInstanceFault : Option AwsErr
  getImage : String → Except AwsErr ImageM
  getSnapshot : String → Except AwsErr SnapshotM
  metavisorAMIRes : Except AwsErr String
  stopFault : Option AwsErr
  modifyAttrFault : instanceAttribute → Option AwsErr
  createVolumeRes : Except AwsErr String
  startFault : Option AwsErr
  deleteOnTermFault : Option AwsErr
  detachFault : String → String → Option AwsErr
  attachFault : String → String → Option AwsErr

/-- service.GetInstance: observe the current instance state. -/
def svcGetInstance (env : SagaEnv) (id : String) : SagaM InstanceM := fun s =>
  let s := emitCall (.getInstance id) s
  match env.getInstanceFault with
  | some e => (.error e, s)
  | none => (.ok (worldInstance s.world), s)

/-- service.StopInstance. -/
def svcStopInstance (env : SagaEnv) (id : String) : SagaM Unit := fun s =>
  let s := emitCall (.stopInstance id) s
  match env.stopFault with
  | some e => (.error e, s)
  | none => (.ok (), s)

/-- service.ModifyInstanceAttribute. -/
def svcModifyInstanceAttribute (env : SagaEnv) (id : String) (attr : instanceAttribute) :
    SagaM Unit := fun s =>
  let s := emitCall (.modifyInstanceAttribute id attr) s
  match env.modifyAttrFault attr with
  | some e => (.error e, s)
  | none => (.ok (), s)

/-- service.CreateVolume: on success the new volume comes into existence. -/
def svcCreateVolume (env : SagaEnv) (snapID zone : String) : SagaM String := fun s =>
  let s := emitCall (.createVolume snapID zone) s
  match env.createVolumeRes with
  | .error e => (.error e, s)
  | .ok vid =>
    (.ok vid, { s with world := { s.world with volumes := s.world.volumes ++ [vid] } })

/-- service.DetachVolume: on success the device mapping loses the pair. -/
def svcDetachVolume (env : SagaEnv) (volID instID device : String) : SagaM Unit := fun s =>
  let s := emitCall (.detachVolume volID instID device) s
  match env.detachFault volID device with
  | some e => (.error e, s)
  | none =>
    (.ok (), { s with world := { s.world with
      devices := s.world.devices.filter (fun p => !(p.1 == device && p.2 == volID)) } })

/-- service.AttachVolume: on success the device mapping gains the pair. -/
def svcAttachVolume (env : SagaEnv) (volID instID device : String) : SagaM Unit := fun s =>
  let s := emitCall (.attachVolume volID instID device) s
  match env.attachFault volID device with
  | some e => (.error e, s)
  | none =>
    (.ok (), { s with world := { s.world with
      devices := s.world.devices ++ [(device, volID)] } })

/-- service.StartInstance. -/
def svcStartInstance (env : SagaEnv) (id : String) : SagaM Unit := fun s =>
  let s := emitCall (.startInstance id) s
  match env.startFault with
  | some e => (.error e, s)
  | none => (.ok (), s)

/-- service.DeleteInstanceDevicesOnTermination. -/
def svcDeleteOnTermination (env : SagaEnv) (id : String) : SagaM Unit := fun s =>
  let s := emitCall (.deleteInstanceDevicesOnTermination id) s
  match env.deleteOnTermFault with
  | some e => (.error e, s)
  | none => (.ok (), s)

/-- Provider semantics of the registered cleanup closures: the closure calls
service.DeleteVolume and swallows any error, so a volume still attached to a
device stays (the provider refuses to delete an in-use volume and the error
is only logged); deleting an absent volume is a no-op success (DeleteVolume
above); otherwise the volume is removed. -/
def runCleanupAction (w : World) : CleanupAction → World
  | .deleteVolume v =>
    if w.devices.any (fun p => p.2 == v) then w
    else { w with volumes := w.volumes.erase v }

/-- Run the bodies produced by an unwind pass, first-popped first. -/
def runCleanupActions (acts : List CleanupAction) (w : World) : World :=
  acts.foldl runCleanupAction w

/-- IsInstanceID from pkg/csp/aws: instance IDs start with the i- id prefix
(strings.HasPrefix). -/
def IsInstanceID (id : String) : Bool := List.isPrefixOf "i-".data id.data

/-- IsAMIID from pkg/csp/aws: AMI IDs start with the ami- id prefix. -/
def IsAMIID (id : String) : Bool := List.isPrefixOf "ami-".data id.data

/-- ProdDomain from pkg/mv/wrap. -/
def ProdDomain : String := "mgmt.brkt.com"

/-- SriovNetIsSupported from pkg/csp/aws. -/
def SriovNetIsSupported : String := "simple"

/-- disallowedInstanceTypes from pkg/mv/wrap. -/
def disallowedInstanceTypes : List String := ["t2.nano", "t1.micro"]

/-- Config from pkg/mv/wrap/wrap.go. -/
structure Config where
  Token : String
  MetavisorVersion : String
  MetavisorAMI : String
  ServiceDomain : String
  IAMRoleARN : String
  IAMDeviceARN : String
  IAMCode : String
  SubnetID : String
deriving DecidableEq, Repr

/-- awsVerifyConfig from pkg/mv/wrap/instance.go: an explicitly specified
metavisor AMI must look like an AMI ID, and a nonempty token must validate
as a launch token. The token validator isValidToken (a JWT decode whose
base64/JSON parsing is stdlib code) is passed in as the oracle. -/
def awsVerifyConfig (isValidToken : String → Bool) (conf : Config) : Option AwsErr :=
  if conf.MetavisorAMI != "" && !(IsAMIID conf.MetavisorAMI) then some .invalidAMI
  else if conf.Token != "" && !(isValidToken conf.Token) then some .invalidLaunchToken
  else none

/-- awsVerifyInstance from pkg/mv/wrap/instance.go: the instance must have a
root device, must not be of a disallowed type, and the guest device name
must be unoccupied. -/
def awsVerifyInstance (inst : InstanceM) : Option AwsErr :=
  if (inst.deviceMapping.lookup inst.rootDeviceName).isNone then some .noRootDevice
  else if disallowedInstanceTypes.contains inst.instanceType then some .invalidType
  else if (inst.deviceMapping.lookup GuestDeviceName).isSome then some .deviceOccupied
  else none

/-- generateUserdataString from pkg/mv/wrap: fails exactly when a nonempty
token does not validate as a launch token; the MIME envelope and gzip
compression come from external collaborators (pkg/userdata, compress/gzip)
and are abstracted as the already-encoded payload encoded (a compression
failure falls back to the uncompressed payload instead of failing). -/
def generateUserdataString (isValidToken : String → Bool) (encoded launchToken domain : String) :
    Except AwsErr String :=
  if launchToken != "" && !(isValidToken launchToken) then .error .invalidLaunchToken
  else .ok encoded

/-- awsSetInstanceUserdata from pkg/mv/wrap/instance.go: generate the boot
configuration and set it through ModifyInstanceAttribute; an ErrNotAllowed
from the provider propagates as is, any other failure becomes
ErrBadUserdata. -/
def awsSetInstanceUserdata (env : SagaEnv) (encoded : String) (inst : InstanceM)
    (domain token : String) : SagaM Unit := fun s =>
  match generateUserdataString env.isValidToken encoded token domain with
  | .error _ => (.error .badUserdata, s)
  | .ok _ =>
    match svcModifyInstanceAttribute env inst.id .AttrUserData s with
    | (.error e, s) =>
      if e = .notAllowed then (.error .notAllowed, s) else (.error .badUserdata, s)
    | (.ok _, s) => (.ok (), s)

/-- getMetavisorAMI from pkg/mv/wrap/wrap.go: resolve the metavisor AMI for
the version and region via the version-listing collaborator (HTTP), here an
oracle response. -/
def getMetavisorAMI (env : SagaEnv) : SagaM String := fun s =>
  let s := emitCall .getMetavisorAMI s
  match env.metavisorAMIRes with
  | .error e => (.error e, s)
  | .ok ami => (.ok ami, s)

/-- awsMetavisorSnapshot from pkg/mv/wrap/instance.go: fetch the metavisor
image, read the snapshot ID off its root device mapping (ErrInvalidAMI when
absent), fetch that snapshot, and also report the image's ENA support. -/
def awsMetavisorSnapshot (env : SagaEnv) (mvImageID : String) : SagaM (SnapshotM × Bool) :=
  fun s =>
  let s := emitCall (.getImage mvImageID) s
  match env.getImage mvImageID with
  | .error e => (.error e, s)
  | .ok img =>
    match img.deviceMapping.lookup img.rootDeviceName with
    | none => (.error .invalidAMI, s)
    | some snapID =>
      let s := emitCall (.getSnapshot snapID) s
      match env.getSnapshot snapID with
      | .error e => (.error e, s)
      | .ok snap => (.ok (snap, img.enaSupport), s)

/-- awsEnableSriovNetSupport from pkg/mv/wrap/instance.go: enable
sriovNetSupport when not already enabled; failures are only logged. -/
def awsEnableSriovNetSupport (env : SagaEnv) (inst : InstanceM) : SagaM Unit := fun s =>
  if inst.sriovNetSupport != SriovNetIsSupported then
    match svcModifyInstanceAttribute env inst.id .AttrSriovNetSupport s with
    | (_, s) => (.ok (), s)
  else (.ok (), s)

/-- awsEnableENASupport from pkg/mv/wrap/instance.go: enable ENA support
when the metavisor supports it and the instance does not; failures
propagate. -/
def awsEnableENASupport (env : SagaEnv) (inst : InstanceM) (mvENASupport : Bool) :
    SagaM Unit := fun s =>
  if mvENASupport && !inst.enaSupport then
    match svcModifyInstanceAttribute env inst.id .AttrENASupport s with
    | (.error e, s) => (.error e, s)
    | (.ok _, s) => (.ok (), s)
  else (.ok (), s)

/-- awsFinalizeInstance from pkg/mv/wrap/instance.go: start the instance
again, then re-assert delete-on-termination for its devices; an
ErrNotAllowed there is downgraded to a warning, other errors propagate. -/
def awsFinalizeInstance (env : SagaEnv) (inst : InstanceM) : SagaM Unit := fun s =>
  match svcStartInstance env inst.id s with
  | (.error e, s) => (.error e, s)
  | (.ok _, s) =>
    match svcDeleteOnTermination env inst.id s with
    | (.error e, s) => if e = .notAllowed then (.ok (), s) else (.error e, s)
    | (.ok _, s) => (.ok (), s)

/-- awsShuffleInstanceVolumes from pkg/mv/wrap/instance.go (lines 406-448):
read the current root volume off the instance's device mapping, register the
only-on-failure cleanup that deletes that volume, then detach it from the
root device, attach it to the guest device, attach the metavisor volume to
the root device, and finally poll awaitInstanceDevices until the new device
mapping is observed. The poller's GetInstance observations are taken from
the world reached after the attach calls, and are recorded in the trace. -/
def awsShuffleInstanceVolumes (env : SagaEnv) (inst : InstanceM) (mvVolID : String) :
    SagaM InstanceM := fun s =>
  match inst.deviceMapping.lookup inst.rootDeviceName with
  | none => (.error .noRootDevice, s)
  | some instanceRootVolID =>
    let s := queueCleanupS (.deleteVolume instanceRootVolID) true s
    match svcDetachVolume env instanceRootVolID inst.id inst.rootDeviceName s with
    | (.error e, s) => (.error e, s)
    | (.ok _, s) =>
      match svcAttachVolume env instanceRootVolID inst.id GuestDeviceName s with
      | (.error e, s) => (.error e, s)
      | (.ok _, s) =>
        match svcAttachVolume env mvVolID inst.id inst.rootDeviceName s with
        | (.error e, s) => (.error e, s)
        | (.ok _, s) =>
          let gi : Nat → Except AwsErr InstanceM := fun _ =>
            match env.getInstanceFault with
            | some e => .error e
            | none => .ok (worldInstance s.world)
          let po := awaitInstanceDevices gi inst mvVolID instanceRootVolID
          let s := { s with calls := s.calls ++ List.replicate po.observations (Call.getInstance inst.id) }
          (po.result, s)

/-- awsWrapInstance from pkg/mv/wrap/instance.go (lines 282-367): the whole
wrap-instance saga body. Validate the ID shape and the config, fetch and
verify the instance, resolve the metavisor AMI and its snapshot, stop the
instance, set its userdata, create the replacement root volume (registering
the only-on-failure cleanup that deletes it), shuffle the volumes, enable
networking attributes, and finalize. -/
def awsWrapInstance (env : SagaEnv) (region id : String) (conf : Config) : SagaM String :=
  fun s0 =>
  if !(IsInstanceID id) then (.error .invalidID, s0)
  else
    match awsVerifyConfig env.isValidToken conf with
    | some e => (.error e, s0)
    | none =>
      match svcGetInstance env id s0 with
      | (.error e, s) => (.error e, s)
      | (.ok inst, s) =>
        match awsVerifyInstance inst with
        | some e => (.error e, s)
        | none =>
          match (if conf.MetavisorAMI == "" then getMetavisorAMI env s
                 else (.ok conf.MetavisorAMI, s)) with
          | (.error e, s) => (.error e, s)
          | (.ok mvAMI, s) =>
            match awsMetavisorSnapshot env mvAMI s with
            | (.error e, s) => (.error e, s)
            | (.ok (mvSnapshot, mvENASupport), s) =>
              match svcStopInstance env id s with
              | (.error e, s) => (.error e, s)
              | (.ok _, s) =>
                let domain := if conf.ServiceDomain == "" then ProdDomain
                              else conf.ServiceDomain
                match awsSetInstanceUserdata env "userdata-mime" inst domain conf.Token s with
                | (.error e, s) => (.error e, s)
                | (.ok _, s) =>
                  match svcCreateVolume env mvSnapshot.id inst.availabilityZone s with
                  | (.error e, s) => (.error e, s)
                  | (.ok mvVolID, s) =>
                    let s := queueCleanupS (.deleteVolume mvVolID) true s
                    match awsShuffleInstanceVolumes env inst mvVolID s with
                    | (.error e, s) => (.error e, s)
                    | (.ok inst2, s) =>
                      match awsEnableSriovNetSupport env inst2 s with
                      | (_, s) =>
                        match awsEnableENASupport env inst2 mvENASupport s with
                        | (.error e, s) => (.error e, s)
                        | (.ok _, s) =>
                          match awsFinalizeInstance env inst2 s with
                          | (.error e, s) => (.error e, s)
                          | (.ok _, s) => (.ok inst2.id, s)

/-- A MaybeString from pkg/mv: the result the saga body goroutine sends back
over its channel. -/
structure MaybeString where
  Result : String
  Error : Option AwsErr
deriving DecidableEq, Repr

/-- Which side of the select in wrap.Instance wins the race. A cancellation
carries the MaybeString the abandoned body goroutine would eventually send,
which the select never reads. -/
inductive RaceWinner
  | cancelled (pending : MaybeString)
  | completed (r : MaybeString)

/-- The select join at the end of wrap.Instance (pkg/mv/wrap/wrap.go, lines
131-140): races the saga body against context cancellation. If cancellation
wins, run mv.Cleanup(false) and return ErrInterrupted; if the body finishes
first, run mv.Cleanup(err == nil) and return the body's result. The second
component is the world after the unwind's compensations ran. -/
def InstanceSelect (winner : RaceWinner) (s : SagaS) : Except AwsErr String × World :=
  match winner with
  | .cancelled _ =>
    (.error .interrupted, runCleanupActions (Cleanup false s.cleanups).1 s.world)
  | .completed r =>
    let w := runCleanupActions (Cleanup r.Error.isNone s.cleanups).1 s.world
    match r.Error with
    | some e => (.error e, w)
    | none => (.ok r.Result, w)

/-! ## Concrete scenario: the device-swap test case.

An instance with root device /dev/xvda holding vol-orig and a free guest
device, wrapped with a metavisor volume vol-mv, with a failure injected at
the attach-replacement-as-root step. -/

/-- The wrapped instance's ID. -/
def instID1 : String := "i-0123456789abcdef0"

/-- Initial world: root device /dev/xvda maps to vol-orig, the secondary
device is free, vol-orig is the only volume. -/
def w0 : World :=
  { instID := instID1
    instanceType := "m4.large"
    rootDeviceName := "/dev/xvda"
    availabilityZone := "us-east-1a"
    sriovNetSupport := SriovNetIsSupported
    enaSupport := true
    devices := [("/dev/xvda", "vol-orig")]
    volumes := ["vol-orig"] }

/-- Initial saga state: fresh stack and empty trace. -/
def s0 : SagaS := { world := w0, cleanups := [], calls := [] }

/-- Environment for the injected-failure run: every provider operation
succeeds, the metavisor image resolves to snapshot snap-mv and the created
replacement volume is vol-mv, but attaching vol-mv (the
attach-replacement-as-root step) fails. -/
def env1 : SagaEnv :=
  { isValidToken := fun _ => true
    getInstanceFault := none
    getImage := fun _ =>
      .ok { rootDeviceName := "/dev/sda1"
            deviceMapping := [("/dev/sda1", "snap-mv")]
            enaSupport := true }
    getSnapshot := fun sid => .ok { id := sid, sizeGB := 8 }
    metavisorAMIRes := .ok "ami-00000000"
    stopFault := none
    modifyAttrFault := fun _ => none
    createVolumeRes := .ok "vol-mv"
    startFault := none
    deleteOnTermFault := none
    detachFault := fun _ _ => none
    attachFault := fun v _ =>
      if v == "vol-mv" then some (.generic "injected attach failure") else none }

/-- Same environment but with the failure injected at the detach step
instead, to observe the stack contents from before the detach. -/
def env1d : SagaEnv :=
  { env1 with
    detachFault := fun _ _ => some (.generic "injected detach failure")
    attachFault := fun _ _ => none }

/-- Config for the scenario: metavisor AMI given explicitly, no token. -/
def conf1 : Config :=
  { Token := ""
    MetavisorVersion := ""
    MetavisorAMI := "ami-12345678"
    ServiceDomain := ""
    IAMRoleARN := ""
    IAMDeviceARN := ""
    IAMCode := ""
    SubnetID := "" }

/-- The injected-failure saga run. -/
def run1 : Except AwsErr String × SagaS := awsWrapInstance env1 "us-east-1" instID1 conf1 s0

/-- The same saga run with the failure injected at the detach step. -/
def run1d : Except AwsErr String × SagaS := awsWrapInstance env1d "us-east-1" instID1 conf1 s0

/-- The world after the failure-path unwind of the injected-failure run:
Cleanup(false) pops and runs the registered compensation bodies. -/
def world1 : World := runCleanupActions (Cleanup false run1.2.cleanups).1 run1.2.world

/-- Number of successful (Except.ok) observations the oracle getInstance
yields on the attempt indices [a, a + k): each such observation is followed
by a sleep in the polling loop, while failed observations skip the sleep. -/
def okObsCount (gi : Nat → Except AwsErr InstanceM) (a : Nat) : Nat → Nat
  | 0 => 0
  | k + 1 => (if (gi a).isOk then 1 else 0) + okObsCount gi (a + 1) k

/-! ## Witness scenarios -/

/-- An instance whose device mapping never shows the expected volumes. -/
def instW6 : InstanceM :=
  ⟨"i-0aaa", "m4.large", "/dev/xvda", [], "us-east-1a", "simple", true⟩

/-- An instance for the authorization-abort scenario. -/
def instW7 : InstanceM :=
  ⟨"i-0bbb", "m4.large", "/dev/xvda", [], "us-east-1a", "simple", true⟩

/-- Observations for the authorization-abort scenario: two transient
failures, then an authorization-denied error on the third attempt. -/
def gi7 : Nat → Except AwsErr InstanceM := fun n =>
  if n < 3 then .error (.generic "transient") else .error .notAllowed

/-- World for the malformed-token scenario. -/
def wW : World :=
  { instID := "i-0ccc"
    instanceType := "m4.large"
    rootDeviceName := "/dev/xvda"
    availabilityZone := "us-east-1a"
    sriovNetSupport := SriovNetIsSupported
    enaSupport := true
    devices := [("/dev/xvda", "vol-guest")]
    volumes := ["vol-guest"] }

/-- Initial saga state for the malformed-token scenario. -/
def sW : SagaS := { world := wW, cleanups := [], calls := [] }

/-- Environment for the malformed-token scenario: the token validator
rejects every token; the provider oracle is immaterial. -/
def envW : SagaEnv :=
  { isValidToken := fun _ => false
    getInstanceFault := none
    getImage := fun _ => .error .invalidAMI
    getSnapshot := fun _ => .error .invalidAMI
    metavisorAMIRes := .error .invalidAMI
    stopFault := none
    modifyAttrFault := fun _ => none
    createVolumeRes := .error .invalidAMI
    startFault := none
    deleteOnTermFault := none
    detachFault := fun _ _ => none
    attachFault := fun _ _ => none }

/-- Config for the malformed-token scenario: a token the validator rejects. -/
def confW : Config :=
  { Token := "not-a-launch-token"
    MetavisorVersion := ""
    MetavisorAMI := ""
    ServiceDomain := ""
    IAMRoleARN := ""
    IAMDeviceARN := ""
    IAMCode := ""
    SubnetID := "" }

/-! ## Theorems -/

/-- Pushing a list of registrations folds to the reversed list. -/
theorem foldl_queueCleanup_eq {α : Type} (regs : List (cleanupFunc α)) (acc : cleanupStack α) :
    regs.foldl (fun s c => QueueCleanup s c.f c.onlyOnFail) acc = regs.reverse ++ acc := by
  induction regs generalizing acc with
  | nil => simp
  | cons c cs ih =>
    simp [List.foldl_cons, QueueCleanup, cleanupStack.Push, ih, List.append_assoc]

/-- A stack built by registering regs in order is the reversed list. -/
theorem registerAll_eq_reverse {α : Type} (regs : List (cleanupFunc α)) :
    registerAll regs = regs.reverse := by
  simpa using foldl_queueCleanup_eq regs []

/-- Cleanup runs exactly the entries passing the success filter, from the
top of the stack down, and drains the stack. -/
theorem Cleanup_eq_filter {α : Type} (success : Bool) (s : cleanupStack α) :
    Cleanup success s
      = ((s.filter (fun c => !success || (success && !c.onlyOnFail))).map (fun c => c.f),
         []) := by
  induction s with
  | nil => rfl
  | cons c cs ih =>
    by_cases h : (!success || (success && !c.onlyOnFail)) = true
    · simp [Cleanup, ih, List.filter_cons, h]
    · simp [Cleanup, ih, List.filter_cons, h]

/-- Every body in a list is executed by runBodies, yielding one report per
body. -/
theorem runBodies_length {σ ε : Type} (bs : List (σ → σ × Option ε)) (st : σ) :
    ((runBodies bs st).2).length = bs.length := by
  induction bs generalizing st with
  | nil => rfl
  | cons b bs ih => simp [runBodies, ih]

/-- C2: for every sequence of N compensation actions registered via
QueueCleanup, Cleanup(false) executes exactly those N action bodies, in
reverse registration order, regardless of each entry's onlyOnFail flag. -/
theorem cleanup_failure_runs_all_in_reverse {α : Type} (regs : List (cleanupFunc α)) :
    (Cleanup false (registerAll regs)).1 = regs.reverse.map (fun c => c.f) ∧
    ((Cleanup false (registerAll regs)).1).length = regs.length := by
  constructor
  · rw [registerAll_eq_reverse, Cleanup_eq_filter]
    simp
  · rw [registerAll_eq_reverse, Cleanup_eq_filter]
    simp

/-- C3: for every sequence of registered compensations in which some entry
has onlyOnFail set, Cleanup(true) executes exactly the entries with
onlyOnFail unset, in reverse registration order, and none of the others. -/
theorem cleanup_success_skips_only_on_failure {α : Type} (regs : List (cleanupFunc α))
    (h : ∃ c ∈ regs, c.onlyOnFail = true) :
    (Cleanup true (registerAll regs)).1
      = (regs.reverse.filter (fun c => !c.onlyOnFail)).map (fun c => c.f) ∧
    ((Cleanup true (registerAll regs)).1).length
      = (regs.filter (fun c => !c.onlyOnFail)).length := by
  constructor
  · rw [registerAll_eq_reverse, Cleanup_eq_filter]
    simp
  · rw [registerAll_eq_reverse, Cleanup_eq_filter]
    simp [List.filter_reverse]

/-- Witness for C3 on a concrete two-entry sequence with one onlyOnFail
entry. -/
theorem cleanup_success_skips_witness :
    (∃ c ∈ ([⟨0, false⟩, ⟨1, true⟩] : List (cleanupFunc Nat)), c.onlyOnFail = true) ∧
    ((Cleanup true (registerAll ([⟨0, false⟩, ⟨1, true⟩] : List (cleanupFunc Nat)))).1
        = (([⟨0, false⟩, ⟨1, true⟩] : List (cleanupFunc Nat)).reverse.filter
            (fun c => !c.onlyOnFail)).map (fun c => c.f) ∧
      ((Cleanup true (registerAll ([⟨0, false⟩, ⟨1, true⟩] : List (cleanupFunc Nat)))).1).length
        = (([⟨0, false⟩, ⟨1, true⟩] : List (cleanupFunc Nat)).filter
            (fun c => !c.onlyOnFail)).length) :=
  ⟨⟨⟨1, true⟩, by decide, rfl⟩,
    cleanup_success_skips_only_on_failure _ ⟨⟨1, true⟩, by decide, rfl⟩⟩

/-- C4: during a single failure unwind, a compensation body that reports an
error does not prevent any earlier-registered body from being popped and
executed: every one of the N bodies runs (one report each), and the unwind
itself is a total function that drains the stack, never propagating an
error. -/
theorem cleanup_body_error_does_not_halt {σ ε : Type}
    (regs : List (cleanupFunc (σ → σ × Option ε))) (st : σ)
    (h : ∃ c ∈ regs, ∃ x, ((c.f x).2).isSome = true) :
    ((runBodies ((Cleanup false (registerAll regs)).1) st).2).length = regs.length ∧
    (Cleanup false (registerAll regs)).2 = [] := by
  constructor
  · rw [registerAll_eq_reverse, Cleanup_eq_filter, runBodies_length]
    simp
  · rw [registerAll_eq_reverse, Cleanup_eq_filter]

/-- Witness for C4: a single registered body that always reports an error;
the unwind still executes it and completes. -/
theorem cleanup_body_error_witness :
    (∃ c ∈ ([⟨fun n => (n + 1, some ()), true⟩] : List (cleanupFunc (Nat → Nat × Option Unit))),
        ∃ x, ((c.f x).2).isSome = true) ∧
    (((runBodies
        ((Cleanup false (registerAll
          ([⟨fun n => (n + 1, some ()), true⟩] : List (cleanupFunc (Nat → Nat × Option Unit))))).1)
        0).2).length
      = ([⟨fun n => (n + 1, some ()), true⟩] : List (cleanupFunc (Nat → Nat × Option Unit))).length ∧
     (Cleanup false (registerAll
        ([⟨fun n => (n + 1, some ()), true⟩] : List (cleanupFunc (Nat → Nat × Option Unit))))).2
      = []) :=
  ⟨⟨⟨fun n => (n + 1, some ()), true⟩, List.mem_cons_self _ _, 0, rfl⟩,
    cleanup_body_error_does_not_halt _ 0
      ⟨⟨fun n => (n + 1, some ()), true⟩, List.mem_cons_self _ _, 0, rfl⟩⟩

/-- C9: for every stack state and both values of the succeeded flag, Cleanup
drains the stack to empty; Push is the only operation that grows the stack
(by exactly one, at the top) and Pop the only one that shrinks it (returning
the pushed entry, LIFO). -/
theorem cleanup_stack_invariants {α : Type} (succ : Bool) (s : cleanupStack α)
    (c : cleanupFunc α) :
    (Cleanup succ s).2 = [] ∧
    cleanupStack.Len (cleanupStack.Push s c) = cleanupStack.Len s + 1 ∧
    cleanupStack.Pop (cleanupStack.Push s c) = some (c, s) ∧
    cleanupStack.Pop ([] : cleanupStack α) = none := by
  refine ⟨?_, rfl, rfl, rfl⟩
  rw [Cleanup_eq_filter]

/-- When no observation in the remaining window converges or reports an
authorization error, the polling loop exhausts its attempts and times out,
having made one observation per remaining attempt. -/
theorem awaitGo_timeout (gi : Nat → Except AwsErr InstanceM) (rdn mvV gV : String)
    (fuel : Nat) :
    ∀ (tr obs slp : Nat), tr + fuel = maxTries + 1 →
    (∀ n, tr ≤ n → n ≤ maxTries →
      gi n ≠ .error .notAllowed ∧
      ∀ i, gi n = .ok i → devicesConverged rdn mvV gV i = false) →
    (awaitGo gi rdn mvV gV tr fuel obs slp).result = .error .timedOut ∧
    (awaitGo gi rdn mvV gV tr fuel obs slp).observations = obs + fuel := by
  induction fuel with
  | zero =>
    intro tr obs slp h1 h2
    simp [awaitGo]
  | succ m ih =>
    intro tr obs slp h1 h2
    have htr : tr ≤ maxTries := by omega
    have hcur := h2 tr (Nat.le_refl tr) htr
    cases hgi : gi tr with
    | error e =>
      have hne : ¬(e = AwsErr.notAllowed) := by
        intro he
        exact hcur.1 (by rw [hgi, he])
      have := ih (tr + 1) (obs + 1) slp (by omega)
        (fun n hn1 hn2 => h2 n (by omega) hn2)
      simp only [awaitGo, hgi, if_neg hne]
      exact ⟨this.1, by rw [this.2]; omega⟩
    | ok i =>
      have hconv : devicesConverged rdn mvV gV i = false := hcur.2 i hgi
      by_cases he : tr = maxTries
      · have hm : m = 0 := by omega
        subst hm
        subst he
        simp [awaitGo, hgi, hconv]
      · have := ih (tr + 1) (obs + 1) (slp + 1) (by omega)
          (fun n hn1 hn2 => h2 n (by omega) hn2)
        simp only [awaitGo, hgi, hconv, Bool.false_eq_true, if_false, if_neg he]
        exact ⟨this.1, by rw [this.2]; omega⟩

/-- C6: if the convergence condition holds for no observation (and no
observation reports an authorization error, which aborts instead), the
device-convergence poller returns ErrTimedOut after performing exactly
maxTries = 60 observations, never more. -/
theorem awaitInstanceDevices_times_out_after_sixty (gi : Nat → Except AwsErr InstanceM)
    (inst : InstanceM) (mvVolID guestVolID : String)
    (h : ∀ n, 1 ≤ n → n ≤ maxTries →
      gi n ≠ .error .notAllowed ∧
      ∀ i, gi n = .ok i →
        devicesConverged inst.rootDeviceName mvVolID guestVolID i = false) :
    (awaitInstanceDevices gi inst mvVolID guestVolID).result = .error .timedOut ∧
    (awaitInstanceDevices gi inst mvVolID guestVolID).observations = 60 := by
  have := awaitGo_timeout gi inst.rootDeviceName mvVolID guestVolID maxTries 1 0 0
    (by simp [maxTries]) h
  constructor
  · exact this.1
  · unfold awaitInstanceDevices
    rw [this.2]
    rfl

/-- Witness for C6: every observation shows an empty device mapping, so the
poller times out after its 60 observations. -/
theorem awaitInstanceDevices_timeout_witness :
    (awaitInstanceDevices (fun _ => .ok instW6) instW6 "vol-mv" "vol-orig").result
        = .error .timedOut ∧
    (awaitInstanceDevices (fun _ => .ok instW6) instW6 "vol-mv" "vol-orig").observations
        = 60 :=
  awaitInstanceDevices_times_out_after_sixty (fun _ => .ok instW6) instW6 "vol-mv" "vol-orig"
    (fun n hn1 hn2 =>
      ⟨by simp, fun i hi => by injection hi with h; rw [← h]; rfl⟩)

/-- When attempt k observes an authorization-denied error and no earlier
observation in the window converges or reports one, the polling loop stops
at attempt k: it returns ErrNotAllowed having made exactly the observations
up to k, with one sleep per successful earlier observation and none after
the aborting observation. -/
theorem awaitGo_notallowed (gi : Nat → Except AwsErr InstanceM) (rdn mvV gV : String)
    (k : Nat) (hk : gi k = .error .notAllowed) (hkb : k ≤ maxTries) (fuel : Nat) :
    ∀ (tr obs slp : Nat), tr + fuel = maxTries + 1 → tr ≤ k →
    (∀ n, tr ≤ n → n < k →
      gi n ≠ .error .notAllowed ∧
      ∀ i, gi n = .ok i → devicesConverged rdn mvV gV i = false) →
    awaitGo gi rdn mvV gV tr fuel obs slp
      = ⟨.error .notAllowed, obs + (k - tr) + 1, slp + okObsCount gi tr (k - tr)⟩ := by
  induction fuel with
  | zero =>
    intro tr obs slp h1 h2 h3
    omega
  | succ m ih =>
    intro tr obs slp h1 h2 h3
    by_cases he : tr = k
    · subst he
      simp [awaitGo, hk, okObsCount]
    · have htk : tr < k := by omega
      have hcur := h3 tr (Nat.le_refl tr) htk
      have hsub : k - tr = (k - (tr + 1)) + 1 := by omega
      cases hgi : gi tr with
      | error e =>
        have hne : ¬(e = AwsErr.notAllowed) := by
          intro hee
          exact hcur.1 (by rw [hgi, hee])
        have hrec := ih (tr + 1) (obs + 1) slp (by omega) (by omega)
          (fun n hn1 hn2 => h3 n (by omega) hn2)
        simp only [awaitGo, hgi, if_neg hne, hrec]
        rw [hsub, okObsCount, hgi]
        simp only [Except.isOk, Except.toBool, PollOutcome.mk.injEq, if_false,
          Bool.false_eq_true, true_and]
        omega
      | ok i =>
        have hconv : devicesConverged rdn mvV gV i = false := hcur.2 i hgi
        have hne60 : ¬(tr = maxTries) := by omega
        have hrec := ih (tr + 1) (obs + 1) (slp + 1) (by omega) (by omega)
          (fun n hn1 hn2 => h3 n (by omega) hn2)
        simp only [awaitGo, hgi, hconv, Bool.false_eq_true, if_false, if_neg hne60, hrec]
        rw [hsub, okObsCount, hgi]
        simp only [Except.isOk, Except.toBool, PollOutcome.mk.injEq, if_true, true_and]
        omega

/-- C7: if some observation reports the authorization-denied condition
(ErrNotAllowed) and no earlier observation converged or reported one, the
poller returns that error at that observation: exactly k observations are
made regardless of the remaining attempt budget, and no sleep or retry
follows the aborting observation (one sleep per successful earlier
observation only). -/
theorem awaitInstanceDevices_notallowed_aborts (gi : Nat → Except AwsErr InstanceM)
    (inst : InstanceM) (mvVolID guestVolID : String) (k : Nat)
    (h1 : 1 ≤ k) (h2 : k ≤ maxTries) (hk : gi k = .error .notAllowed)
    (hpre : ∀ n, 1 ≤ n → n < k →
      gi n ≠ .error .notAllowed ∧
      ∀ i, gi n = .ok i →
        devicesConverged inst.rootDeviceName mvVolID guestVolID i = false) :
    awaitInstanceDevices gi inst mvVolID guestVolID
      = ⟨.error .notAllowed, k, okObsCount gi 1 (k - 1)⟩ := by
  have := awaitGo_notallowed gi inst.rootDeviceName mvVolID guestVolID k hk h2
    maxTries 1 0 0 (by simp [maxTries]) h1 hpre
  unfold awaitInstanceDevices
  rw [this]
  have hobs : 0 + (k - 1) + 1 = k := by omega
  rw [hobs]
  simp

/-- Witness for C7: two transient observation failures, then an
authorization-denied error on attempt 3; the poller stops there with 58
attempts of budget left. -/
theorem awaitInstanceDevices_notallowed_witness :
    awaitInstanceDevices gi7 instW7 "vol-mv" "vol-orig"
      = ⟨.error .notAllowed, 3, okObsCount gi7 1 (3 - 1)⟩ :=
  awaitInstanceDevices_notallowed_aborts gi7 instW7 "vol-mv" "vol-orig" 3
    (by decide) (by decide) rfl
    (fun n hn1 hn2 => by
      have hlt : n < 3 := hn2
      constructor
      · show gi7 n ≠ .error .notAllowed
        unfold gi7
        simp [hlt]
      · intro i hi
        exact absurd hi (by unfold gi7; simp [hlt]))

/-- C10: DeleteVolume called with a (non-blank) volume ID for which the
provider reports a volume-not-found error code returns success (no error)
instead of propagating it, making the volume-delete compensation bodies
idempotent with respect to volumes already deleted or never created. -/
theorem deleteVolume_notfound_returns_nil (volumeID code : String)
    (h1 : trimSpace volumeID ≠ "") (h2 : strContains code volumeNotFound = true) :
    DeleteVolume volumeID (some (.awsError code)) = none := by
  unfold DeleteVolume
  have hc : ¬(code = accessDeniedErrorCode) := by
    intro h
    subst h
    exact absurd h2 (by decide)
  simp [h1, hc, h2]

/-- Witness for C10 at a concrete volume ID and the provider's concrete
not-found code. -/
theorem deleteVolume_notfound_witness :
    trimSpace "vol-0123" ≠ "" ∧
    strContains "InvalidVolumeID.NotFound" volumeNotFound = true ∧
    DeleteVolume "vol-0123" (some (.awsError "InvalidVolumeID.NotFound")) = none :=
  ⟨by decide, by decide,
    deleteVolume_notfound_returns_nil "vol-0123" "InvalidVolumeID.NotFound"
      (by decide) (by decide)⟩

/-- C5: for every wrap-instance invocation whose config carries a token the
launch-token validator rejects (with a well-formed instance ID and a
well-formed or absent metavisor AMI, the checks that precede it), the saga
body returns ErrInvalidLaunchToken and leaves the state untouched: no
service call at all is made, so in particular no instance stop, userdata
modification, volume creation, attach or detach occurs, and no compensation
is registered. -/
theorem wrap_invalid_token_fails_before_mutation (env : SagaEnv) (region id : String)
    (conf : Config) (st0 : SagaS)
    (h1 : IsInstanceID id = true)
    (h2 : conf.MetavisorAMI = "" ∨ IsAMIID conf.MetavisorAMI = true)
    (h3 : conf.Token ≠ "")
    (h4 : env.isValidToken conf.Token = false) :
    awsWrapInstance env region id conf st0 = (.error .invalidLaunchToken, st0) := by
  have ht : (conf.Token != "") = true := by
    simpa [bne_iff_ne] using h3
  have hvc : awsVerifyConfig env.isValidToken conf = some .invalidLaunchToken := by
    unfold awsVerifyConfig
    rcases h2 with h2 | h2
    · simp [h2, ht, h4]
    · simp [h2, ht, h4]
  unfold awsWrapInstance
  simp [h1, hvc]

/-- Witness for C5: a rejected token in an otherwise well-formed config; the
saga returns the invalid-launch-token error with the state unchanged. -/
theorem wrap_invalid_token_witness :
    IsInstanceID "i-0ccc" = true ∧
    (confW.MetavisorAMI = "" ∨ IsAMIID confW.MetavisorAMI = true) ∧
    confW.Token ≠ "" ∧
    envW.isValidToken confW.Token = false ∧
    awsWrapInstance envW "us-east-1" "i-0ccc" confW sW = (.error .invalidLaunchToken, sW) :=
  ⟨by decide, Or.inl rfl, by decide, rfl,
    wrap_invalid_token_fails_before_mutation envW "us-east-1" "i-0ccc" confW sW
      (by decide) (Or.inl rfl) (by decide) rfl⟩

/-- C1 counterexample: in the device-swap scenario (root /dev/xvda holding
vol-orig, free secondary device, failure injected at the
attach-replacement-as-root step) the failure-path unwind does NOT leave the
instance with the original volume back at the root device name and the
secondary device free: the compensation registered before the detach
deletes volumes instead of restoring them, so after the unwind the root
device holds no volume at all. -/
theorem device_swap_unwind_claim_false :
    run1.1 = .error (.generic "injected attach failure") ∧
    ¬ (world1.devices.lookup "/dev/xvda" = some "vol-orig" ∧
       world1.devices.lookup GuestDeviceName = none) := by
  decide

/-- C1 amended: the only-on-failure compensation registered before the
detach deletes the detached original volume (it does not restore it), and
the earlier volume compensation deletes the replacement. For the injected
failure at the attach-replacement-as-root step, the failure unwind runs the
two registered deletions in reverse registration order and leaves the root
device empty with the original volume still parked at the secondary device
(its deletion fails while attached and is swallowed), while the replacement
volume is deleted. The compensation is registered before the detach is
attempted: a run whose detach fails already has it on the stack. -/
theorem device_swap_unwind_deletes_volumes :
    run1.2.cleanups
      = [⟨.deleteVolume "vol-orig", true⟩, ⟨.deleteVolume "vol-mv", true⟩] ∧
    (Cleanup false run1.2.cleanups).1
      = [.deleteVolume "vol-orig", .deleteVolume "vol-mv"] ∧
    world1.devices.lookup "/dev/xvda" = none ∧
    world1.devices.lookup GuestDeviceName = some "vol-orig" ∧
    world1.volumes = ["vol-orig"] ∧
    run1d.1 = .error (.generic "injected detach failure") ∧
    run1d.2.cleanups
      = [⟨.deleteVolume "vol-orig", true⟩, ⟨.deleteVolume "vol-mv", true⟩] := by
  decide

/-- C8: when cancellation wins the race in wrap.Instance, the select runs
the compensation stack's failure unwind (Cleanup false) and returns
ErrInterrupted, and its outcome does not depend on the result the in-flight
saga body would eventually produce (the body is abandoned, not awaited). -/
theorem instance_cancelled_unwinds_and_interrupts (pending pending2 : MaybeString)
    (s : SagaS) :
    InstanceSelect (.cancelled pending) s
      = (.error .interrupted, runCleanupActions (Cleanup false s.cleanups).1 s.world) ∧
    InstanceSelect (.cancelled pending) s = InstanceSelect (.cancelled pending2) s :=
  ⟨rfl, rfl⟩
